import Mathlib

/-!
Verification of the database-access layer of the go-sandbox repository
(src/app/databaseAccess/databaseAccess.go and the sandbox main).

The embedding models the committed state of the single table `foo`
(integer primary key `id`, text column `name`), the transactional batch
insert, the select operations, the config-file loader `loadPgParams`,
the PostgreSQL connection-string builder, and the two demonstration
runners `showExamplesWithSqlLite` / `showExamplesWithPostgres`.
-/

/-- A row of the table `foo`: integer id (primary key) and text name. -/
structure Row where
  id : Int
  name : String
deriving DecidableEq, Repr

/-- The visible (committed) state of one database session: whether the
table `foo` exists, and its committed rows in insertion order. -/
structure DbState where
  hasTable : Bool
  rows : List Row
deriving DecidableEq, Repr

/-- Errors of the layer.  `wrap` mirrors `errors.Wrap` from pkg/errors:
a stage message around the underlying cause.  `uniqueConstraint` is the
driver's primary-key violation, `noSuchTable` a statement against a
missing table, and `noRows` is `sql.ErrNoRows` (the NotFound class). -/
inductive DbError where
  | uniqueConstraint (id : Int)
  | noSuchTable
  | noRows
  | wrap (msg : String) (cause : DbError)
deriving DecidableEq, Repr

/-- One execution of the prepared statement
`insert into foo(id, name) values ($1,$2)` against the rows visible in
the transaction: a duplicate primary key is a unique-constraint error,
otherwise the row is appended. -/
def execInsert (txRows : List Row) (r : Row) : Except DbError (List Row) :=
  if txRows.any (fun x => x.id = r.id) then
    .error (.uniqueConstraint r.id)
  else
    .ok (txRows ++ [r])

/-- The insert loop of `insertSampleData` (databaseAccess.go:99-106),
generalized over the list of rows to insert: each row is inserted in
order; the first failure stops the loop and is wrapped with the stage
message, exactly as the Go loop returns on the first error. -/
def insertLoop (txRows : List Row) : List Row → Except DbError (List Row)
  | [] => .ok txRows
  | r :: rs =>
    match execInsert txRows r with
    | .error e => .error (.wrap "Failed to insert sample data in the sample table." e)
    | .ok t => insertLoop t rs

/-- `insertBatch` embeds `insertSampleData` (databaseAccess.go:87-113)
generalized over the row list: begin a transaction, prepare the insert
statement (fails when the table is missing), run the loop, and commit
only when every row succeeded.  On any failure the transaction is never
committed, so the committed state is returned unchanged together with
the error, mirroring the Go early returns before `tx.Commit()`. -/
def insertBatch (s : DbState) (rows : List Row) : DbState × Option DbError :=
  if s.hasTable then
    match insertLoop s.rows rows with
    | .error e => (s, some e)
    | .ok t => ({ s with rows := t }, none)
  else
    (s, some (.wrap "Failed to create prepared statement." .noSuchTable))

/-- Three-digit zero padding, the `%03d` verb of `fmt.Sprintf` for the
loop indices 0..9 (and beyond, unpadded past 999). -/
def pad3 (i : Nat) : String :=
  if i < 10 then "00" ++ toString i
  else if i < 100 then "0" ++ toString i
  else toString i

/-- The name actually inserted for index `i` by databaseAccess.go:100-101:
`fmt.Sprintf("%03d", i, name)` formats `i` with `%03d` and, having an
extra argument `name = "nom" ++ pad3 i`, appends Go's EXTRA diagnostic. -/
def goName (i : Nat) : String :=
  pad3 i ++ "%!(EXTRA string=nom" ++ pad3 i ++ ")"

/-- The generated sample rows: ids 0..n-1 with the `goName` texts.  The
source loop (databaseAccess.go:99) is the instance `n = 10`. -/
def genRows (n : Nat) : List Row :=
  (List.range n).map (fun i => Row.mk (Int.ofNat i) (goName i))

/-- `insertSampleData` (databaseAccess.go:87-113): the transactional
insert of the 10 generated rows. -/
def insertSampleData (s : DbState) : DbState × Option DbError :=
  insertBatch s (genRows 10)

/-- `selectAll` embeds `selectDataInSampleTable` (databaseAccess.go:117-142):
`select id, name from foo` returns the committed rows; querying a
missing table fails at query preparation. -/
def selectAll (s : DbState) : Except DbError (List Row) :=
  if s.hasTable then .ok s.rows
  else .error (.wrap "Failed to prepare select query." .noSuchTable)

/-- `createSampleTable` (databaseAccess.go:58-68): the fixed DDL; a
second creation without a drop is an error. -/
def createSampleTable (s : DbState) : Except DbError DbState :=
  if s.hasTable then
    .error (.wrap "Failed to create the sample table in the database." .noSuchTable)
  else
    .ok { hasTable := true, rows := [] }

/-- `deleteSampleTableIfExists` (databaseAccess.go:73-81):
`drop table IF EXISTS foo`, idempotent, never errors on a missing table. -/
def deleteSampleTableIfExists (_s : DbState) : Except DbError DbState :=
  .ok { hasTable := false, rows := [] }

/-- `cleanupSampleTabledb` (databaseAccess.go:146-153): `delete from foo`. -/
def cleanupSampleTabledb (s : DbState) : Except DbError DbState :=
  if s.hasTable then .ok { s with rows := [] }
  else .error (.wrap "failed to delete rows from the table foo" .noSuchTable)

/-- Modelled from the spec: `selectOne(table, key)` is not implemented in
databaseAccess.go; the sandbox main (src/unnamed/part_000:77-87) performs
it inline via `db.Prepare("select name from foo where id = ?")` and
`QueryRow(key).Scan`, whose database/sql semantics return the first
matching row or `sql.ErrNoRows` when zero rows match. -/
def selectOne (s : DbState) (key : Int) : Except DbError Row :=
  match s.rows.find? (fun r => r.id = key) with
  | some r => .ok r
  | none => .error .noRows

/-- `strings.Split` on a one-character separator, over the character
list of the string.  Matches Go semantics: splitting the empty string
yields one empty field; the result is never empty. -/
def splitCharList (c : Char) : List Char → List (List Char)
  | [] => [[]]
  | x :: xs =>
    if x = c then [] :: splitCharList c xs
    else
      match splitCharList c xs with
      | [] => [[x]]
      | y :: ys => (x :: y) :: ys

/-- `strings.Split(s, sep)` for a one-character separator, as strings. -/
def goSplit (c : Char) (s : String) : List String :=
  (splitCharList c s.data).map String.mk

/-- Digit run of `strconv.Atoi`: consumes the whole remainder; any
non-digit character fails the parse. -/
def parseDigits (acc : Nat) : List Char → Option Nat
  | [] => some acc
  | c :: cs => if c.isDigit then parseDigits (acc * 10 + (c.toNat - 48)) cs else none

/-- `strconv.Atoi`: optional sign followed by at least one digit;
anything else is an error (modelled as `none`).  Overflow of the
64-bit Go int is not modelled. -/
def atoi? (s : String) : Option Int :=
  match s.data with
  | [] => none
  | '-' :: cs =>
    match cs with
    | [] => none
    | _ => (parseDigits 0 cs).map (fun n => -(n : Int))
  | '+' :: cs =>
    match cs with
    | [] => none
    | _ => (parseDigits 0 cs).map (fun n => (n : Int))
  | cs => (parseDigits 0 cs).map (fun n => (n : Int))

/-- The `PostgresDb` struct (databaseAccess.go:242-249).  The Go zero
value has empty strings and port 0. -/
structure PostgresDb where
  host : String := ""
  port : Int := 0
  dbname : String := ""
  user : String := ""
  password : String := ""
  sslmode : String := ""
deriving DecidableEq, Repr

/-- Outcome of `loadPgParams`: the Go function returns the (possibly
partially populated) struct together with a nil or non-nil error; a
line with no `=` makes `elements[1]` panic at runtime. -/
inductive LoadResult where
  | ok (cfg : PostgresDb)
  | fail (cfg : PostgresDb) (msg : String)
  | panic
deriving DecidableEq, Repr

/-- The scan loop of `loadPgParams` (databaseAccess.go:339-362): each
line is split on `=`; `key = elements[0]` and `value = elements[1]`
(a panic when the split has a single field); the switch assigns the
recognized keys, `port` through `strconv.Atoi` which on failure leaves
port 0 and returns the struct with the error message; unknown keys
fall through silently. -/
def loadLines (out : PostgresDb) : List String → LoadResult
  | [] => .ok out
  | line :: rest =>
    match goSplit '=' line with
    | [] => .panic
    | [_] => .panic
    | key :: value :: _ =>
      if key = "user" then loadLines { out with user := value } rest
      else if key = "password" then loadLines { out with password := value } rest
      else if key = "dbname" then loadLines { out with dbname := value } rest
      else if key = "host" then loadLines { out with host := value } rest
      else if key = "port" then
        match atoi? value with
        | some n => loadLines { out with port := n } rest
        | none =>
          .fail { out with port := 0 }
            ("The port you have set '" ++ value ++ "' for the database is not an integer. Please fix the configuration.")
      else if key = "sslmode" then loadLines { out with sslmode := value } rest
      else loadLines out rest

/-- `loadPgParams` (databaseAccess.go:326-364) on the lines of an
existing config file, starting from the zero-value struct. -/
def loadPgParams (file : List String) : LoadResult :=
  loadLines {} file

/-- `PostgresDb.buildConnectionString` (databaseAccess.go:254-256). -/
def PostgresDb.buildConnectionString (p : PostgresDb) : String :=
  "user=" ++ p.user ++ " password=" ++ p.password ++ " dbname=" ++ p.dbname
    ++ " host=" ++ p.host ++ " port=" ++ toString p.port ++ " sslmode=" ++ p.sslmode

/-- Modelled from the spec: parsing the client/server descriptor back is
not implemented in the repository (libpq consumes it); the spec defines
the descriptor as a single string of space-separated `key=value` tokens
among `{user, password, dbname, host, port, sslmode}`.  Tokens are
processed left to right, later assignments overriding earlier ones, each
token split at its first `=`, unrecognized or separator-free tokens
ignored. -/
def parseToken (out : PostgresDb) (tok : String) : PostgresDb :=
  match goSplit '=' tok with
  | key :: value :: _ =>
    if key = "user" then { out with user := value }
    else if key = "password" then { out with password := value }
    else if key = "dbname" then { out with dbname := value }
    else if key = "host" then { out with host := value }
    else if key = "port" then { out with port := (atoi? value).getD 0 }
    else if key = "sslmode" then { out with sslmode := value }
    else out
  | _ => out

/-- Modelled from the spec: the descriptor parser, splitting the
descriptor on spaces and folding `parseToken` over the tokens. -/
def parseConnectionString (s : String) : PostgresDb :=
  (goSplit ' ' s).foldl parseToken {}

/-- The filesystem as seen by the embedded backend: database files on
disk, each holding the store persisted at that path. -/
abbrev FileSystem : Type := List (String × DbState)

/-- `os.Remove` (databaseAccess.go:41): deletes the file at the path;
the Bool is true when removal failed because no such file existed (the
code then only logs and proceeds). -/
def osRemove (fs : FileSystem) (p : String) : FileSystem × Bool :=
  (fs.filter (fun e => !(e.1 = p)), !(fs.any (fun e => e.1 = p)))

/-- `initDb` (databaseAccess.go:38-53): remove any pre-existing file at
`dbfile` (a failed removal of a missing file is only logged), then open
a fresh SQLite session there; opening a fresh path succeeds and the
session starts from an empty store with no table. -/
def initDb (fs : FileSystem) (dbfile : String) : FileSystem × DbState :=
  ((osRemove fs dbfile).1, { hasTable := false, rows := [] })

/-- `db.Close()` for the embedded backend: the session state is
persisted at the path on disk. -/
def closeDb (fs : FileSystem) (dbfile : String) (s : DbState) : FileSystem :=
  (dbfile, s) :: (fs.filter (fun e => !(e.1 = dbfile)))

/-- The stages attempted by the demonstration runners
(databaseAccess.go:200-240 and 263-320). -/
inductive Stage where
  | openDb
  | dropIfExists
  | createSchema
  | insertStage
  | selectStage
  | pointLookup
  | deleteAllStage
  | literalInsert
  | spatialQuery
  | closeDb
deriving DecidableEq, Repr

/-- How a runner ends: all stages done, an error printed via
`printStackTrace` followed by an early return, or `log.Fatal`, which
calls `os.Exit(1)` and terminates the whole process (skipping the
deferred `db.Close`). -/
inductive Termination where
  | normal
  | reportedError
  | fatalExit
deriving DecidableEq, Repr

/-- A runner run: the stages attempted in order, and how it ended. -/
structure RunResult where
  trace : List Stage
  term : Termination
deriving DecidableEq, Repr

/-- The environment oracle: which stage of a run fails.  Each field
corresponds to one fallible call site of the two runners. -/
structure StageOracle where
  openErr : Bool := false
  dropErr : Bool := false
  createErr : Bool := false
  insertErr : Bool := false
  selectErr : Bool := false
  cleanupErr : Bool := false
  literalInsertErr : Bool := false
  literalSelectErr : Bool := false
  spatialQueryErr : Bool := false
  spatialScanErr : Bool := false
deriving DecidableEq, Repr

/-- `showExamplesWithSqlLite` (databaseAccess.go:200-240): initDb, then
create table, transactional insert, select all, delete all, and the
literal multi-row insert with its select; every error is printed with
`printStackTrace` and ends the run early, the deferred `db.Close`
running whenever `initDb` succeeded.  There is no drop-if-exists stage
and no point lookup. -/
def showExamplesWithSqlLite (e : StageOracle) : RunResult :=
  if e.openErr then ⟨[.openDb], .reportedError⟩
  else if e.createErr then ⟨[.openDb, .createSchema, .closeDb], .reportedError⟩
  else if e.insertErr then
    ⟨[.openDb, .createSchema, .insertStage, .closeDb], .reportedError⟩
  else if e.selectErr then
    ⟨[.openDb, .createSchema, .insertStage, .selectStage, .closeDb], .reportedError⟩
  else if e.cleanupErr then
    ⟨[.openDb, .createSchema, .insertStage, .selectStage, .deleteAllStage, .closeDb],
      .reportedError⟩
  else if e.literalInsertErr then
    ⟨[.openDb, .createSchema, .insertStage, .selectStage, .deleteAllStage, .literalInsert,
      .closeDb], .reportedError⟩
  else if e.literalSelectErr then
    ⟨[.openDb, .createSchema, .insertStage, .selectStage, .deleteAllStage, .literalInsert,
      .selectStage, .closeDb], .reportedError⟩
  else
    ⟨[.openDb, .createSchema, .insertStage, .selectStage, .deleteAllStage, .literalInsert,
      .selectStage, .closeDb], .normal⟩

/-- `showExamplesWithPostgres` (databaseAccess.go:263-320): connect,
drop-if-exists, create table, transactional insert, select all — each
of these errors is printed and ends the run early with the deferred
close — and then the `spatial_ref_sys` query, whose query and scan
errors go through `log.Fatal` (databaseAccess.go:304,315), terminating
the process without running the deferred close. -/
def showExamplesWithPostgres (e : StageOracle) : RunResult :=
  if e.openErr then ⟨[.openDb], .reportedError⟩
  else if e.dropErr then ⟨[.openDb, .dropIfExists, .closeDb], .reportedError⟩
  else if e.createErr then
    ⟨[.openDb, .dropIfExists, .createSchema, .closeDb], .reportedError⟩
  else if e.insertErr then
    ⟨[.openDb, .dropIfExists, .createSchema, .insertStage, .closeDb], .reportedError⟩
  else if e.selectErr then
    ⟨[.openDb, .dropIfExists, .createSchema, .insertStage, .selectStage, .closeDb],
      .reportedError⟩
  else if e.spatialQueryErr then
    ⟨[.openDb, .dropIfExists, .createSchema, .insertStage, .selectStage, .spatialQuery],
      .fatalExit⟩
  else if e.spatialScanErr then
    ⟨[.openDb, .dropIfExists, .createSchema, .insertStage, .selectStage, .spatialQuery],
      .fatalExit⟩
  else
    ⟨[.openDb, .dropIfExists, .createSchema, .insertStage, .selectStage, .spatialQuery,
      .closeDb], .normal⟩

/-- `main` (databaseAccess.go:367-394): the SQLite demonstration runs
first, then the PostgreSQL one; the second backend is reached exactly
when the first run did not terminate the process. -/
def mainRun (e1 e2 : StageOracle) : RunResult × Option RunResult :=
  let r1 := showExamplesWithSqlLite e1
  if r1.term = .fatalExit then (r1, none)
  else (r1, some (showExamplesWithPostgres e2))

/-! ### Helper lemmas -/

theorem splitCharList_ne_nil (c : Char) (l : List Char) : splitCharList c l ≠ [] := by
  induction l with
  | nil => simp [splitCharList]
  | cons x xs ih =>
    by_cases h : x = c
    · simp [splitCharList, h]
    · simp only [splitCharList, if_neg h]
      cases hs : splitCharList c xs with
      | nil => simp
      | cons y ys => simp

theorem splitCharList_append_sep (c : Char) (a b : List Char) :
    splitCharList c (a ++ c :: b) = splitCharList c a ++ splitCharList c b := by
  induction a with
  | nil => simp [splitCharList]
  | cons x xs ih =>
    by_cases h : x = c
    · simp [splitCharList, h, ih]
    · simp only [List.cons_append, splitCharList, List.append_eq, if_neg h, ih]
      cases hs : splitCharList c xs with
      | nil => exact absurd hs (splitCharList_ne_nil c xs)
      | cons y ys => simp

theorem splitCharList_of_not_mem (c : Char) (a : List Char) (h : c ∉ a) :
    splitCharList c a = [a] := by
  induction a with
  | nil => simp [splitCharList]
  | cons x xs ih =>
    simp only [List.mem_cons, not_or] at h
    simp [splitCharList, Ne.symm h.1, ih h.2]

theorem insertLoop_ok (rows : List Row) : ∀ acc : List Row,
    List.Pairwise (fun a b => a.id ≠ b.id) rows →
    (∀ r ∈ rows, ∀ a ∈ acc, a.id ≠ r.id) →
    insertLoop acc rows = .ok (acc ++ rows) := by
  induction rows with
  | nil => intro acc _ _; simp [insertLoop]
  | cons r rs ih =>
    intro acc hp hd
    have hany : acc.any (fun x => x.id = r.id) = false := by
      rw [List.any_eq_false]
      intro a ha
      simpa using hd r (by simp) a ha
    have hrec := ih (acc ++ [r]) hp.of_cons ?_
    · simp only [insertLoop, execInsert, hany, Bool.false_eq_true, if_false]
      rw [hrec]
      simp
    · intro x hx a ha
      rcases List.mem_append.mp ha with h1 | h1
      · exact hd x (by simp [hx]) a h1
      · have : a = r := by simpa using h1
        subst this
        exact (List.pairwise_cons.mp hp).1 x hx

theorem genRows_pairwise (n : Nat) :
    List.Pairwise (fun a b => a.id ≠ b.id) (genRows n) := by
  unfold genRows
  rw [List.pairwise_map]
  have h := List.pairwise_lt_range n
  exact h.imp (fun hlt heq => absurd (Int.ofNat.inj heq) (Nat.ne_of_lt hlt))

theorem genRows_length (n : Nat) : (genRows n).length = n := by
  simp [genRows]

/-- C2: for every row count N, the transactional batch insert of the N
generated rows into the empty table succeeds with no error and commits
exactly those rows, and `selectAll` afterwards returns exactly those N
(id, name) pairs; the source loop is the instance N = 10. -/
theorem insertBatch_selectAll_roundtrip (n : Nat) :
    insertBatch ⟨true, []⟩ (genRows n) = (⟨true, genRows n⟩, none) ∧
    selectAll ⟨true, genRows n⟩ = .ok (genRows n) ∧
    (genRows n).length = n ∧
    insertSampleData ⟨true, []⟩ = (⟨true, genRows 10⟩, none) := by
  have hloop : insertLoop ([] : List Row) (genRows n) = .ok (genRows n) := by
    have := insertLoop_ok (genRows n) [] (genRows_pairwise n) (by simp)
    simpa using this
  have hloop10 : insertLoop ([] : List Row) (genRows 10) = .ok (genRows 10) := by
    have := insertLoop_ok (genRows 10) [] (genRows_pairwise 10) (by simp)
    simpa using this
  refine ⟨?_, by simp [selectAll], genRows_length n, ?_⟩
  · simp [insertBatch, hloop]
  · simp [insertSampleData, insertBatch, hloop10]

/-- C1: whenever the batch insert fails (for example on a duplicate
primary key among its rows), the transaction is never committed, so the
whole batch is aborted: the error is returned and the committed table
state — hence the `selectAll` result — is exactly what it was before
the call. -/
theorem insertBatch_atomic (s : DbState) (rows : List Row)
    (h : (insertBatch s rows).2.isSome = true) :
    (insertBatch s rows).1 = s ∧
    selectAll (insertBatch s rows).1 = selectAll s := by
  unfold insertBatch at *
  cases hs : s.hasTable with
  | false => simp [hs]
  | true =>
    simp only [hs, if_true] at h ⊢
    cases hl : insertLoop s.rows rows with
    | error e => simp [hl]
    | ok t => simp [hl] at h

/-- Witness for C1: a batch with a duplicate primary key on the empty
table fails, and the table afterwards is unchanged. -/
theorem insertBatch_atomic_witness :
    (insertBatch ⟨true, []⟩ [⟨1, "a"⟩, ⟨1, "b"⟩]).2.isSome = true ∧
    (insertBatch ⟨true, []⟩ [⟨1, "a"⟩, ⟨1, "b"⟩]).1 = ⟨true, []⟩ ∧
    selectAll (insertBatch ⟨true, []⟩ [⟨1, "a"⟩, ⟨1, "b"⟩]).1 = selectAll ⟨true, []⟩ :=
  ⟨by decide, (insertBatch_atomic ⟨true, []⟩ [⟨1, "a"⟩, ⟨1, "b"⟩] (by decide)).1,
    (insertBatch_atomic ⟨true, []⟩ [⟨1, "a"⟩, ⟨1, "b"⟩] (by decide)).2⟩

theorem strMk_data (s : String) : String.mk s.data = s := rfl

theorem goSplit_ne_nil (c : Char) (s : String) : goSplit c s ≠ [] := by
  unfold goSplit
  intro hcontra
  exact splitCharList_ne_nil c s.data (List.map_eq_nil_iff.mp hcontra)

theorem goSplit_no_sep (c : Char) (s : String) (h : c ∉ s.data) : goSplit c s = [s] := by
  simp [goSplit, splitCharList_of_not_mem c s.data h, strMk_data]

theorem goSplit_eq_split (k v line : String) (hl : line.data = k.data ++ '=' :: v.data)
    (hk : '=' ∉ k.data) : goSplit '=' line = k :: goSplit '=' v := by
  rw [goSplit, hl, splitCharList_append_sep, splitCharList_of_not_mem _ _ hk]
  simp [goSplit, strMk_data]

theorem data_eqStr : ("=" : String).data = '=' :: [] := rfl

theorem loadLines_no_sep (out : PostgresDb) (l : String) (rest : List String)
    (h : '=' ∉ l.data) : loadLines out (l :: rest) = .panic := by
  simp [loadLines, goSplit_no_sep '=' l h]

theorem loadLines_unknown (out : PostgresDb) (k v : String) (rest : List String)
    (hk : '=' ∉ k.data)
    (hmem : k ∉ (["user", "password", "dbname", "host", "port", "sslmode"] : List String)) :
    loadLines out ((k ++ "=" ++ v) :: rest) = loadLines out rest := by
  have hl : (k ++ "=" ++ v).data = k.data ++ '=' :: v.data := by
    simp [String.data_append, data_eqStr]
  have hsplit := goSplit_eq_split k v _ hl hk
  simp only [List.mem_cons, List.mem_singleton, List.not_mem_nil, or_false] at hmem
  push_neg at hmem
  obtain ⟨h1, h2, h3, h4, h5, h6⟩ := hmem
  cases hv : goSplit '=' v with
  | nil => exact absurd hv (goSplit_ne_nil '=' v)
  | cons w ws =>
    rw [hv] at hsplit
    simp only [loadLines, hsplit]
    simp [h1, h2, h3, h4, h5, h6]

theorem data_sslmodeEq :
    ("sslmode=" : String).data
      = 's' :: 's' :: 'l' :: 'm' :: 'o' :: 'd' :: 'e' :: '=' :: [] := rfl

theorem data_sslmode :
    ("sslmode" : String).data = 's' :: 's' :: 'l' :: 'm' :: 'o' :: 'd' :: 'e' :: [] := rfl

theorem data_portEq : ("port=" : String).data = 'p' :: 'o' :: 'r' :: 't' :: '=' :: [] := rfl

theorem data_port : ("port" : String).data = 'p' :: 'o' :: 'r' :: 't' :: [] := rfl

theorem loadLines_sslmode_trunc (out : PostgresDb) (v w : String) (rest : List String)
    (hv : '=' ∉ v.data) :
    loadLines out (("sslmode=" ++ v ++ "=" ++ w) :: rest)
      = loadLines { out with sslmode := v } rest := by
  have hl : ("sslmode=" ++ v ++ "=" ++ w).data
      = ("sslmode" : String).data ++ '=' :: (v ++ "=" ++ w).data := by
    simp [String.data_append, data_eqStr, data_sslmodeEq, data_sslmode]
  have hk : '=' ∉ ("sslmode" : String).data := by decide
  have hl2 : (v ++ "=" ++ w).data = v.data ++ '=' :: w.data := by
    simp [String.data_append, data_eqStr]
  have hsplit := goSplit_eq_split "sslmode" (v ++ "=" ++ w) _ hl hk
  rw [goSplit_eq_split v w _ hl2 hv] at hsplit
  simp only [loadLines, hsplit]
  simp

theorem loadLines_port_bad (out : PostgresDb) (v : String) (rest : List String)
    (hv : '=' ∉ v.data) (ha : atoi? v = none) :
    loadLines out (("port=" ++ v) :: rest)
      = .fail { out with port := 0 }
          ("The port you have set '" ++ v
            ++ "' for the database is not an integer. Please fix the configuration.") := by
  have hl : ("port=" ++ v).data = ("port" : String).data ++ '=' :: v.data := by
    simp [String.data_append, data_eqStr, data_portEq, data_port]
  have hk : '=' ∉ ("port" : String).data := by decide
  have hsplit := goSplit_eq_split "port" v _ hl hk
  rw [goSplit_no_sep '=' v hv] at hsplit
  simp only [loadLines, hsplit]
  simp [ha]

/-- C10: while scanning the config file, any line that contains no `=`
character (the empty line included) makes `loadPgParams` index past the
end of the one-element split result: `elements[1]` panics with an
index-out-of-range error instead of returning a ConfigError or
skipping the line. -/
theorem loadPgParams_no_sep_line_panics (out : PostgresDb) (l : String)
    (rest : List String) (h : '=' ∉ l.data) :
    loadLines out (l :: rest) = .panic :=
  loadLines_no_sep out l rest h

/-- Witness for C10: the empty line (and hence a file consisting of it)
panics. -/
theorem loadPgParams_no_sep_line_panics_witness :
    '=' ∉ ("" : String).data ∧ loadPgParams [""] = .panic :=
  ⟨by decide, loadPgParams_no_sep_line_panics {} "" [] (by decide)⟩

/-- Counterexample for C6 as stated: the file whose single line is
`foo` has an unrecognized key, yet the loader does not silently ignore
the line — it panics on `elements[1]`. -/
theorem loadPgParams_unknown_key_cex :
    loadPgParams ["foo"] = .panic ∧ loadPgParams ["foo"] ≠ .ok {} := by
  refine ⟨by decide, by decide⟩

/-- C6 amended: for every input line that does contain `=`, the loader
populates only the fields named by the recognized keys
{user, password, dbname, host, port, sslmode}: a `=`-containing line
with an unrecognized key is silently ignored with no error, and a value
containing `=` is truncated at the first occurrence of `=` within the
value; a line with no `=` at all, however, panics instead of being
ignored. -/
theorem loadPgParams_keys_amended :
    (∀ (out : PostgresDb) (k v : String) (rest : List String),
      '=' ∉ k.data →
      k ∉ (["user", "password", "dbname", "host", "port", "sslmode"] : List String) →
      loadLines out ((k ++ "=" ++ v) :: rest) = loadLines out rest) ∧
    (∀ (out : PostgresDb) (v w : String) (rest : List String),
      '=' ∉ v.data →
      loadLines out (("sslmode=" ++ v ++ "=" ++ w) :: rest)
        = loadLines { out with sslmode := v } rest) ∧
    (∀ (out : PostgresDb) (l : String) (rest : List String),
      '=' ∉ l.data → loadLines out (l :: rest) = .panic) :=
  ⟨loadLines_unknown, loadLines_sslmode_trunc, loadLines_no_sep⟩

/-- Witness for C6 amended: an unknown key `foo` with a value is
skipped, `sslmode=a=b` stores the truncated value `a`, and the
separator-free line `nope` panics. -/
theorem loadPgParams_keys_amended_witness :
    loadLines {} (("foo" ++ "=" ++ "bar") :: []) = loadLines {} [] ∧
    loadLines {} (("sslmode=" ++ "a" ++ "=" ++ "b") :: [])
      = loadLines { sslmode := "a" } [] ∧
    loadLines {} ("nope" :: []) = .panic :=
  ⟨loadPgParams_keys_amended.1 {} "foo" "bar" [] (by decide) (by decide),
    loadPgParams_keys_amended.2.1 {} "a" "b" [] (by decide),
    loadPgParams_keys_amended.2.2 {} "nope" [] (by decide)⟩

/-- Counterexample for C3 as stated: a config file whose `port` value
fails to parse is returned with the fields populated by the earlier
lines (here `user=alice`), not with a zero-value struct; and a negative
port such as `-5`, which does not parse as a positive integer, is
accepted with no ConfigError at all. -/
theorem loadPgParams_port_cex :
    loadPgParams ["user=alice", "port=abc"]
      = .fail { user := "alice" }
          ("The port you have set 'abc' for the database is not an integer. Please fix the configuration.") ∧
    ({ user := "alice" } : PostgresDb) ≠ {} ∧
    loadPgParams ["port=-5"] = .ok { port := -5 } := by
  refine ⟨by decide, by decide, by decide⟩

/-- C3 amended: the one validation performed at load time is that the
`port` value parses as an integer (sign allowed, positivity is not
checked); when it does not, the loader returns a ConfigError whose
message identifies the offending value, together with the struct as
populated by the preceding lines with `port` left 0 — not necessarily
the zero-value struct; a well-formed file yields a struct whose fields
match the file's key/value pairs. -/
theorem loadPgParams_port_validation_amended :
    (∀ (out : PostgresDb) (v : String) (rest : List String),
      '=' ∉ v.data → atoi? v = none →
      loadLines out (("port=" ++ v) :: rest)
        = .fail { out with port := 0 }
            ("The port you have set '" ++ v
              ++ "' for the database is not an integer. Please fix the configuration.")) ∧
    loadPgParams ["user=u", "password=p", "dbname=d", "host=h", "port=5432", "sslmode=require"]
      = .ok { host := "h", port := 5432, dbname := "d", user := "u", password := "p",
              sslmode := "require" } :=
  ⟨loadLines_port_bad, by decide⟩

/-- Witness for C3 amended: `port=abc` after `user=alice` fails with
the message naming `abc` and the partially populated struct. -/
theorem loadPgParams_port_validation_amended_witness :
    loadLines { user := "alice" } (("port=" ++ "abc") :: [])
      = .fail { user := "alice", port := 0 }
          ("The port you have set '" ++ "abc"
            ++ "' for the database is not an integer. Please fix the configuration.") :=
  loadPgParams_port_validation_amended.1 { user := "alice" } "abc" [] (by decide) (by decide)

theorem sqlite_runner_no_fatal (e : StageOracle) :
    (showExamplesWithSqlLite e).term ≠ Termination.fatalExit := by
  unfold showExamplesWithSqlLite
  split_ifs <;> simp

theorem postgres_fatal_only_spatial (e : StageOracle) :
    (showExamplesWithPostgres e).term = Termination.fatalExit →
    e.spatialQueryErr = true ∨ e.spatialScanErr = true := by
  unfold showExamplesWithPostgres
  split_ifs with h1 h2 h3 h4 h5 h6 h7 <;> simp_all

theorem main_reaches_postgres (e1 e2 : StageOracle) :
    (mainRun e1 e2).2.isSome = true := by
  simp [mainRun, if_neg (sqlite_runner_no_fatal e1)]

/-- Counterexample for C4 as stated: an error of the `spatial_ref_sys`
query stage of the PostgreSQL runner goes through `log.Fatal`, which
terminates the whole process (the run is not merely reported: the
deferred close never runs). -/
theorem postgres_spatial_fatal_cex :
    (showExamplesWithPostgres { spatialQueryErr := true }).term = Termination.fatalExit ∧
    (showExamplesWithPostgres { spatialQueryErr := true }).term ≠ Termination.reportedError ∧
    Stage.closeDb ∉ (showExamplesWithPostgres { spatialQueryErr := true }).trace := by
  refine ⟨by decide, by decide, by decide⟩

/-- C4 amended: every stage error of the SQLite runner, and every stage
error of the PostgreSQL runner except those of the `spatial_ref_sys`
query (whose query and scan errors call `log.Fatal` and terminate the
process), is reported without panicking and only halts the remaining
stages of that backend; the SQLite runner never terminates the process,
so the next backend is always reached. -/
theorem runner_error_policy_amended (e1 e2 : StageOracle) :
    (showExamplesWithSqlLite e1).term ≠ Termination.fatalExit ∧
    ((showExamplesWithPostgres e2).term = Termination.fatalExit →
      e2.spatialQueryErr = true ∨ e2.spatialScanErr = true) ∧
    (mainRun e1 e2).2.isSome = true :=
  ⟨sqlite_runner_no_fatal e1, postgres_fatal_only_spatial e2, main_reaches_postgres e1 e2⟩

/-- Witness for C4 amended: with no SQLite error and a failing spatial
query, the SQLite run is not fatal, the fatal PostgreSQL exit indeed
comes from the spatial stage, and the PostgreSQL backend is reached. -/
theorem runner_error_policy_amended_witness :
    (showExamplesWithSqlLite {}).term ≠ Termination.fatalExit ∧
    (({ spatialQueryErr := true } : StageOracle).spatialQueryErr = true ∨
      ({ spatialQueryErr := true } : StageOracle).spatialScanErr = true) ∧
    (mainRun {} { spatialQueryErr := true }).2.isSome = true :=
  ⟨(runner_error_policy_amended {} { spatialQueryErr := true }).1,
    (runner_error_policy_amended {} { spatialQueryErr := true }).2.1 (by decide),
    (runner_error_policy_amended {} { spatialQueryErr := true }).2.2⟩

/-- Counterexample for C5 as stated: on error-free runs the two
backends do not execute the same stage sequence, and neither executes a
point lookup by key; the PostgreSQL runner also has no delete-all and
no literal multi-row insert, while the SQLite runner has no
drop-schema-if-exists stage. -/
theorem runner_stage_sequence_cex :
    (showExamplesWithSqlLite {}).trace ≠ (showExamplesWithPostgres {}).trace ∧
    Stage.pointLookup ∉ (showExamplesWithSqlLite {}).trace ∧
    Stage.pointLookup ∉ (showExamplesWithPostgres {}).trace ∧
    Stage.deleteAllStage ∉ (showExamplesWithPostgres {}).trace ∧
    Stage.dropIfExists ∉ (showExamplesWithSqlLite {}).trace := by
  refine ⟨by decide, by decide, by decide, by decide, by decide⟩

/-- C5 amended: each backend executes its own fixed stage sequence.
SQLite: destructive open, create schema, transactional insert of the
generated rows, select-all, delete-all, literal multi-row insert,
select-all, close.  PostgreSQL: open, drop-schema-if-exists, create
schema, transactional insert, select-all, the spatial_ref_sys query,
close.  Neither performs a point lookup by key. -/
theorem runner_stage_sequences_amended :
    (showExamplesWithSqlLite {}).trace
      = [.openDb, .createSchema, .insertStage, .selectStage, .deleteAllStage,
         .literalInsert, .selectStage, .closeDb] ∧
    (showExamplesWithPostgres {}).trace
      = [.openDb, .dropIfExists, .createSchema, .insertStage, .selectStage,
         .spatialQuery, .closeDb] :=
  ⟨rfl, rfl⟩

/-- C7: opening the embedded backend at a path first removes any
pre-existing file there, so the session always starts from an empty
store; when no file exists the failed removal (reported by `osRemove`)
is a no-op and the open still proceeds on the unchanged filesystem; and
reopening the path after a close again finds an empty store rather than
erroring, whatever state was persisted. -/
theorem initDb_destructive_open (fs : FileSystem) (p : String) (s : DbState) :
    (initDb fs p).2 = ⟨false, []⟩ ∧
    (initDb fs p).1 = (osRemove fs p).1 ∧
    ((osRemove fs p).2 = true → initDb fs p = (fs, ⟨false, []⟩)) ∧
    (initDb (closeDb (initDb fs p).1 p s) p).2 = ⟨false, []⟩ := by
  refine ⟨rfl, rfl, ?_, rfl⟩
  intro h
  have hany : fs.any (fun e => e.1 = p) = false := by
    simpa [osRemove] using h
  have hall : ∀ e ∈ fs, ¬(e.1 = p) := by
    intro e he
    have := List.any_eq_false.mp hany e he
    simpa using this
  have hfil : fs.filter (fun e => !(e.1 = p)) = fs := by
    apply List.filter_eq_self.mpr
    intro a ha
    simpa using hall a ha
  simp [initDb, osRemove, hfil]

/-- Witness for C7: with a file at another path only, the removal at
the target path fails, the open is a no-op on the filesystem and the
store starts empty; a close followed by a reopen is empty again. -/
theorem initDb_destructive_open_witness :
    (osRemove [("other", ⟨true, []⟩)] "foo.db").2 = true ∧
    initDb [("other", ⟨true, []⟩)] "foo.db" = ([("other", ⟨true, []⟩)], ⟨false, []⟩) ∧
    (initDb (closeDb (initDb [("other", ⟨true, []⟩)] "foo.db").1 "foo.db"
      ⟨true, [⟨1, "a"⟩]⟩) "foo.db").2 = ⟨false, []⟩ :=
  ⟨by decide,
    (initDb_destructive_open [("other", ⟨true, []⟩)] "foo.db" ⟨true, [⟨1, "a"⟩]⟩).2.2.1
      (by decide),
    (initDb_destructive_open [("other", ⟨true, []⟩)] "foo.db" ⟨true, [⟨1, "a"⟩]⟩).2.2.2⟩

/-- C9: a point lookup on a key matching zero rows returns the
NotFound-class error `noRows` (`sql.ErrNoRows`), a constructor distinct
from the decode and connectivity errors of `DbError`, and never any
row value at all — in particular never a zero-valued Row. -/
theorem selectOne_notFound (s : DbState) (key : Int)
    (h : ∀ r ∈ s.rows, r.id ≠ key) :
    selectOne s key = .error .noRows ∧ ∀ r : Row, selectOne s key ≠ .ok r := by
  have hf : s.rows.find? (fun r => r.id = key) = none := by
    rw [List.find?_eq_none]
    intro x hx
    simpa using h x hx
  exact ⟨by simp [selectOne, hf], fun r => by simp [selectOne, hf]⟩

/-- Witness for C9: looking up the absent id 2 in a table holding only
id 1 yields the NotFound error. -/
theorem selectOne_notFound_witness :
    selectOne ⟨true, [⟨1, "a"⟩]⟩ 2 = .error .noRows :=
  (selectOne_notFound ⟨true, [⟨1, "a"⟩]⟩ 2 (by decide)).1

theorem parseToken_sslmode_require (out : PostgresDb) :
    (parseToken out "sslmode=require").sslmode = "require" := rfl

/-- C8: for any configuration whose sslmode is "require", building the
client/server descriptor (the space-separated key=value string of
`buildConnectionString`) and parsing it back recovers the same sslmode
value "require". -/
theorem buildConnectionString_sslmode_roundtrip (p : PostgresDb)
    (h : p.sslmode = "require") :
    (parseConnectionString (PostgresDb.buildConnectionString p)).sslmode = "require" := by
  unfold PostgresDb.buildConnectionString
  rw [h]
  have hd : ("user=" ++ p.user ++ " password=" ++ p.password ++ " dbname=" ++ p.dbname
        ++ " host=" ++ p.host ++ " port=" ++ toString p.port ++ " sslmode=" ++ "require").data
      = ("user=" ++ p.user ++ " password=" ++ p.password ++ " dbname=" ++ p.dbname
        ++ " host=" ++ p.host ++ " port=" ++ toString p.port).data
        ++ ' ' :: ("sslmode=require" : String).data := by
    simp only [String.data_append, List.append_assoc]
    rfl
  unfold parseConnectionString
  rw [goSplit, hd, splitCharList_append_sep,
    splitCharList_of_not_mem ' ' (("sslmode=require" : String).data) (by decide),
    List.map_append, List.foldl_append]
  simp [strMk_data, parseToken_sslmode_require]

/-- Witness for C8: the default configuration of `main`
(databaseAccess.go:374-381) has sslmode "require" and round-trips. -/
theorem buildConnectionString_sslmode_roundtrip_witness :
    (parseConnectionString (PostgresDb.buildConnectionString
      { host := "localhost", port := 5432, dbname := "postgres", user := "docker",
        password := "docker", sslmode := "require" })).sslmode = "require" :=
  buildConnectionString_sslmode_roundtrip
    { host := "localhost", port := 5432, dbname := "postgres", user := "docker",
      password := "docker", sslmode := "require" } rfl
